import Mathlib

/-!
# Robot API gateway: dispatcher, codec, id generator and the two device adaptors

A shallow embedding of `main/boards/common/robot_api_server.{h,cc}`,
`main/boards/dog1/dog_api_adapter.h` and `main/boards/palqiqi2/palqiqi_api_adapter.h`.

Conventions of the embedding.

* C `int` values are `Int`; no arithmetic is done on them, only comparison with constants.
* A pointer that may be `nullptr` is an `Option`.
* A JSON text (a request body, the `data_json` argument of `SendJsonResponse`) is represented
  by what `cJSON_Parse` makes of it: `none` for a text that does not parse, `some doc` for a
  text denoting the document `doc`.
* Everything a handler does to the outside (calls of `ExecuteAction` and `SetVolume` on the
  device, envelopes handed to `httpd_resp_send`) is appended to a trace of `Event`s.
-/

namespace Chg

/-! ## cJSON documents -/

/-- A parsed cJSON item, by the struct fields the handlers read: the type tag, `valuestring`,
`valueint`, and the named children of an object. -/
inductive cJSON where
  | jNull : cJSON
  | jFalse : cJSON
  | jTrue : cJSON
  | jNumber (valueint : Int) : cJSON
  | jString (valuestring : String) : cJSON
  | jArray (items : List cJSON) : cJSON
  | jObject (fields : List (String × cJSON)) : cJSON

/-- A JSON text, by the outcome of `cJSON_Parse` on it. -/
abbrev JsonText := Option cJSON

/-- The function `cJSON_Parse`: `nullptr` on a text that is not JSON. -/
def cJSON_Parse (text : JsonText) : Option cJSON := text

/-- The function `cJSON_PrintUnformatted`: the text denoting a document. -/
def cJSON_PrintUnformatted (doc : cJSON) : JsonText := some doc

/-- The function `cJSON_IsNumber`. -/
def cJSON_IsNumber : cJSON → Bool
  | .jNumber _ => true
  | _ => false

/-- The field `valuestring` of an item: set for string items only. -/
def cJSON.valuestring : cJSON → Option String
  | .jString s => some s
  | _ => none

/-- The field `valueint` of an item (meaningful for number items). -/
def cJSON.valueint : cJSON → Int
  | .jNumber n => n
  | _ => 0

/-- The name comparison of `cJSON_GetObjectItem`: equal after `tolower` on every character. -/
def case_insensitive_eq (a b : String) : Bool :=
  a.toList.map Char.toLower == b.toList.map Char.toLower

/-- The function `cJSON_GetObjectItem`: the first child whose name matches, `nullptr` when
there is none or the item has no named children. -/
def cJSON_GetObjectItem : cJSON → String → Option cJSON
  | .jObject fields, name => (fields.find? (fun kv => case_insensitive_eq name kv.1)).map Prod.snd
  | _, _ => none

/-! ## Board and audio codec (external collaborators) -/

/-- Modelled from the spec: the class `AudioCodec` (`output_volume()`, `SetOutputVolume`) is
used by the adaptors but is not among the sources; the volume is "represented and stored as
an integer", so the codec is the stored output volume. -/
structure AudioCodec where
  output_volume_ : Int

/-- The accessor `AudioCodec::output_volume()`. -/
def AudioCodec.output_volume (c : AudioCodec) : Int := c.output_volume_

/-- The method `AudioCodec::SetOutputVolume(volume)`: stores the volume. -/
def AudioCodec.SetOutputVolume (_c : AudioCodec) (volume : Int) : AudioCodec :=
  { output_volume_ := volume }

/-- Modelled from the spec: the singleton `Board` ("a hardware battery/audio query surface")
is not among the sources. `codec` is what `GetAudioCodec()` returns (possibly `nullptr`);
`battery` is the level `GetBatteryLevel` writes to its out-parameter, `none` when it writes
nothing. -/
structure Board where
  codec : Option AudioCodec
  battery : Option Int

/-- The controller functions declared `extern` by an adaptor header
(`XControllerIsIdle`, `XControllerGetCurrentAction`, `XControllerExecuteAction`,
`PalqiqiControllerHasHands`), over a controller state `κ`. -/
structure Controller (κ : Type) where
  IsIdle : κ → Bool
  GetCurrentAction : κ → String
  ExecuteAction : String → Int → Int → κ → Bool × κ
  HasHands : κ → Bool

/-- What an adaptor touches: the board singleton and the controller state. -/
structure World (κ : Type) where
  board : Board
  ctrl : κ

/-! ## The device command interface -/

/-- The abstract class `IRobotActions` as a record of methods over a device world `σ`. -/
structure IRobotActions (σ : Type) where
  GetDeviceId : σ → String
  GetModel : σ → String
  GetCapabilities : σ → List String
  GetFirmwareVersion : σ → String
  ExecuteAction : String → Int → Int → σ → Bool × σ
  IsIdle : σ → Bool
  GetCurrentAction : σ → String
  GetBatteryLevel : σ → Int
  GetVolume : σ → Int
  SetVolume : Int → σ → Bool × σ

/-! ## DogApiAdapter -/

/-- The class `DogApiAdapter`: its only member is `device_id_`. -/
structure DogApiAdapter where
  device_id_ : String

namespace DogApiAdapter

/-- The constructor: `settings.GetString("device_id", "dog-001")`. -/
def new (stored_device_id : Option String) : DogApiAdapter :=
  { device_id_ := stored_device_id.getD "dog-001" }

def GetDeviceId (self : DogApiAdapter) : String := self.device_id_

def GetModel (_self : DogApiAdapter) : String := "dog"

def GetCapabilities (_self : DogApiAdapter) : List String :=
  ["walk_forward", "walk_backward", "turn_left", "turn_right", "home", "stop", "say_hello",
   "sway_back_forth", "push_up", "sleep", "battery", "status", "volume"]

def GetFirmwareVersion (_self : DogApiAdapter) (DOG_VERSION : String) : String := DOG_VERSION

def ExecuteAction {κ : Type} (_self : DogApiAdapter) (C : Controller κ)
    (action : String) (steps speed : Int) (w : World κ) : Bool × World κ :=
  let r := C.ExecuteAction action steps speed w.ctrl
  (r.1, { w with ctrl := r.2 })

def IsIdle {κ : Type} (_self : DogApiAdapter) (C : Controller κ) (w : World κ) : Bool :=
  C.IsIdle w.ctrl

def GetCurrentAction {κ : Type} (_self : DogApiAdapter) (C : Controller κ) (w : World κ) :
    String :=
  C.GetCurrentAction w.ctrl

def GetBatteryLevel {κ : Type} (_self : DogApiAdapter) (w : World κ) : Int :=
  let level : Int := 0
  match w.board.battery with
  | some l => l
  | none => level

def GetVolume {κ : Type} (_self : DogApiAdapter) (w : World κ) : Int :=
  match w.board.codec with
  | some codec => codec.output_volume
  | none => 100

def SetVolume {κ : Type} (_self : DogApiAdapter) (volume : Int) (w : World κ) :
    Bool × World κ :=
  let volume := if volume < 0 then 0 else volume
  let volume := if volume > 100 then 100 else volume
  match w.board.codec with
  | some codec =>
    (true, { w with board := { w.board with codec := some (codec.SetOutputVolume volume) } })
  | none => (false, w)

/-- The adaptor seen through the interface. -/
def toIRobotActions {κ : Type} (self : DogApiAdapter) (C : Controller κ)
    (DOG_VERSION : String) : IRobotActions (World κ) :=
  { GetDeviceId := fun _ => self.GetDeviceId
    GetModel := fun _ => self.GetModel
    GetCapabilities := fun _ => self.GetCapabilities
    GetFirmwareVersion := fun _ => self.GetFirmwareVersion DOG_VERSION
    ExecuteAction := self.ExecuteAction C
    IsIdle := self.IsIdle C
    GetCurrentAction := self.GetCurrentAction C
    GetBatteryLevel := self.GetBatteryLevel
    GetVolume := self.GetVolume
    SetVolume := self.SetVolume }

end DogApiAdapter

/-! ## PalqiqiApiAdapter -/

/-- The class `PalqiqiApiAdapter`: its only member is `device_id_`. -/
structure PalqiqiApiAdapter where
  device_id_ : String

namespace PalqiqiApiAdapter

/-- The constructor: `settings.GetString("device_id", "palqiqi-002")`. -/
def new (stored_device_id : Option String) : PalqiqiApiAdapter :=
  { device_id_ := stored_device_id.getD "palqiqi-002" }

def GetDeviceId (self : PalqiqiApiAdapter) : String := self.device_id_

def GetModel (_self : PalqiqiApiAdapter) : String := "palqiqi"

def GetCapabilities {κ : Type} (_self : PalqiqiApiAdapter) (C : Controller κ) (w : World κ) :
    List String :=
  let caps := ["walk_forward", "walk_backward", "turn_left", "turn_right", "home", "stop",
    "jump", "swing", "moonwalk", "bend", "shake_leg", "updown", "look_around"]
  let caps := if C.HasHands w.ctrl then caps ++ ["hands_up"] ++ ["hands_down"] ++ ["hand_wave"]
    else caps
  caps ++ ["battery"] ++ ["status"] ++ ["volume"]

def GetFirmwareVersion (_self : PalqiqiApiAdapter) (PALQIQI_VERSION : String) : String :=
  PALQIQI_VERSION

def ExecuteAction {κ : Type} (_self : PalqiqiApiAdapter) (C : Controller κ)
    (action : String) (steps speed : Int) (w : World κ) : Bool × World κ :=
  let r := C.ExecuteAction action steps speed w.ctrl
  (r.1, { w with ctrl := r.2 })

def IsIdle {κ : Type} (_self : PalqiqiApiAdapter) (C : Controller κ) (w : World κ) : Bool :=
  C.IsIdle w.ctrl

def GetCurrentAction {κ : Type} (_self : PalqiqiApiAdapter) (C : Controller κ) (w : World κ) :
    String :=
  C.GetCurrentAction w.ctrl

def GetBatteryLevel {κ : Type} (_self : PalqiqiApiAdapter) (w : World κ) : Int :=
  let level : Int := 0
  match w.board.battery with
  | some l => l
  | none => level

def GetVolume {κ : Type} (_self : PalqiqiApiAdapter) (w : World κ) : Int :=
  match w.board.codec with
  | some codec => codec.output_volume
  | none => 100

def SetVolume {κ : Type} (_self : PalqiqiApiAdapter) (volume : Int) (w : World κ) :
    Bool × World κ :=
  let volume := if volume < 0 then 0 else volume
  let volume := if volume > 100 then 100 else volume
  match w.board.codec with
  | some codec =>
    (true, { w with board := { w.board with codec := some (codec.SetOutputVolume volume) } })
  | none => (false, w)

/-- The adaptor seen through the interface. -/
def toIRobotActions {κ : Type} (self : PalqiqiApiAdapter) (C : Controller κ)
    (PALQIQI_VERSION : String) : IRobotActions (World κ) :=
  { GetDeviceId := fun _ => self.GetDeviceId
    GetModel := fun _ => self.GetModel
    GetCapabilities := self.GetCapabilities C
    GetFirmwareVersion := fun _ => self.GetFirmwareVersion PALQIQI_VERSION
    ExecuteAction := self.ExecuteAction C
    IsIdle := self.IsIdle C
    GetCurrentAction := self.GetCurrentAction C
    GetBatteryLevel := self.GetBatteryLevel
    GetVolume := self.GetVolume
    SetVolume := self.SetVolume }

end PalqiqiApiAdapter

/-! ## Transport listener (ESP-IDF `httpd`, an external collaborator) -/

inductive httpd_method_t where
  | HTTP_GET : httpd_method_t
  | HTTP_POST : httpd_method_t
  deriving DecidableEq, Repr

/-- The five static handler functions of `RobotApiServer`, as route targets. -/
inductive HandlerFn where
  | HandleDeviceInfo : HandlerFn
  | HandleDeviceAction : HandlerFn
  | HandleDeviceStatus : HandlerFn
  | HandleDeviceVolumeGet : HandlerFn
  | HandleDeviceVolumeSet : HandlerFn
  deriving DecidableEq, Repr

/-- A route descriptor (`user_ctx` is always `this` and is left out). -/
structure httpd_uri_t where
  uri : String
  method : httpd_method_t
  handler : HandlerFn
  deriving DecidableEq, Repr

/-- The fields of `httpd_config_t` that `Start` sets. -/
structure httpd_config_t where
  server_port : Nat
  max_uri_handlers : Nat
  recv_wait_timeout : Nat
  send_wait_timeout : Nat
  deriving DecidableEq, Repr

/-- A running listener: what a non-null `httpd_handle_t` designates. -/
structure httpd_server where
  config : httpd_config_t
  uri_handlers : List httpd_uri_t
  deriving DecidableEq, Repr

/-- The call `httpd_start(&server_, &config)`; `ok` is whether the platform can open the
listener. On failure the handle is left untouched (`nullptr`). -/
def httpd_start (ok : Bool) (config : httpd_config_t) : Option httpd_server :=
  if ok then some { config := config, uri_handlers := [] } else none

/-- The call `httpd_register_uri_handler`: refused when a handler with the same URI and
method is registered already or when all `max_uri_handlers` slots are taken. -/
def httpd_register_uri_handler (server : httpd_server) (u : httpd_uri_t) : httpd_server :=
  if server.uri_handlers.any (fun h => h.uri == u.uri && h.method == u.method) then server
  else if server.uri_handlers.length ≥ server.config.max_uri_handlers then server
  else { server with uri_handlers := server.uri_handlers ++ [u] }

/-! ## RobotApiServer: lifecycle -/

/-- The members of `RobotApiServer`: the listener handle and the bound device. -/
structure RobotApiServer (σ : Type) where
  server_ : Option httpd_server
  robot_ : Option (IRobotActions σ)

namespace RobotApiServer

/-- The state of a freshly constructed server: both members `nullptr`. -/
def init (σ : Type) : RobotApiServer σ := { server_ := none, robot_ := none }

def IsRunning {σ : Type} (self : RobotApiServer σ) : Bool := self.server_.isSome

def device_info : httpd_uri_t :=
  { uri := "/api/v1/device/info", method := .HTTP_GET, handler := .HandleDeviceInfo }

def device_action : httpd_uri_t :=
  { uri := "/api/v1/device/action", method := .HTTP_POST, handler := .HandleDeviceAction }

def device_status : httpd_uri_t :=
  { uri := "/api/v1/device/status", method := .HTTP_GET, handler := .HandleDeviceStatus }

def device_volume_get : httpd_uri_t :=
  { uri := "/api/v1/device/volume", method := .HTTP_GET, handler := .HandleDeviceVolumeGet }

def device_volume_set : httpd_uri_t :=
  { uri := "/api/v1/device/volume", method := .HTTP_POST, handler := .HandleDeviceVolumeSet }

/-- The method `Start(robot, port)`; `httpd_start_ok` is the platform's answer to
`httpd_start`. -/
def Start {σ : Type} (self : RobotApiServer σ) (robot : Option (IRobotActions σ)) (port : Nat)
    (httpd_start_ok : Bool) : RobotApiServer σ :=
  if self.server_.isSome then self
  else
    let self := { self with robot_ := robot }
    match self.robot_ with
    | none => self
    | some _ =>
      let config : httpd_config_t :=
        { server_port := port, max_uri_handlers := 8, recv_wait_timeout := 10,
          send_wait_timeout := 10 }
      match httpd_start httpd_start_ok config with
      | none => self
      | some server =>
        let server := httpd_register_uri_handler server device_info
        let server := httpd_register_uri_handler server device_action
        let server := httpd_register_uri_handler server device_status
        let server := httpd_register_uri_handler server device_volume_get
        let server := httpd_register_uri_handler server device_volume_set
        { self with server_ := some server }

/-- The method `Stop()`. -/
def Stop {σ : Type} (self : RobotApiServer σ) : RobotApiServer σ :=
  if self.server_.isSome then { self with server_ := none } else self

end RobotApiServer

/-! ## RobotApiServer: helpers -/

/-- The array `charset` of `GenerateActionId`, without its terminating NUL. -/
def charset : List Char := "0123456789abcdefghijklmnopqrstuvwxyz".toList

/-- The value `sizeof(charset)`: the 36 symbols and the terminating NUL. -/
def sizeof_charset : Nat := charset.length + 1

/-- The call `esp_random()`: the next value of the random source, as a `uint32_t`. The source
is the sequence of values it is going to return. -/
def esp_random (rng : Nat → Nat) : Nat × (Nat → Nat) :=
  (rng 0 % 2 ^ 32, fun i => rng (i + 1))

/-- The expression `charset[r % (sizeof(charset) - 1)]`. -/
def charsetAt (r : Nat) : Char := charset.getD (r % (sizeof_charset - 1)) (Char.ofNat 0)

/-- The loop of `GenerateActionId`: `n` more characters are appended to `id`. -/
def GenerateActionId.loop : Nat → (Nat → Nat) → List Char → List Char × (Nat → Nat)
  | 0, rng, id => (id, rng)
  | n + 1, rng, id =>
    let r := esp_random rng
    GenerateActionId.loop n r.2 (id ++ [charsetAt r.1])

/-- The helper `GenerateActionId()`. -/
def GenerateActionId (rng : Nat → Nat) : String × (Nat → Nat) :=
  let r := GenerateActionId.loop 6 rng []
  (String.mk r.1, r.2)

/-- The envelope handed to `httpd_resp_send`, with the two headers set before it. -/
structure Response where
  code : Int
  message : String
  data : cJSON
  content_type : String
  access_control_allow_origin : String

/-- What a handler does to the outside. -/
inductive Event where
  | ExecuteAction (action : String) (steps speed : Int) : Event
  | SetVolume (volume : Int) : Event
  | Send (response : Response) : Event

/-- The text of the string literal written with an opening and a closing brace only (the
default `data_json`). -/
def emptyObjectText : JsonText := some (cJSON.jObject [])

/-- The helper `SendJsonResponse(req, code, message, data_json)`. -/
def SendJsonResponse (code : Int) (message : String) (data_json : JsonText) : Event :=
  let data := match cJSON_Parse data_json with
    | some data => data
    | none => cJSON.jObject []
  Event.Send
    { code := code, message := message, data := data, content_type := "application/json",
      access_control_allow_origin := "*" }

/-! ## RobotApiServer: request handlers -/

/-- The request as a handler sees it: `user_ctx`, `content_len`, and the outcome of
`httpd_req_recv(req, content, len)` for a requested length `len`, which is the return value
and the text then in the buffer `content`. -/
structure httpd_req_t (σ : Type) where
  user_ctx : Option (RobotApiServer σ)
  content_len : Nat
  recv : Nat → Int × JsonText

/-- What a handler runs against: the device world and the random source. -/
structure Sys (σ : Type) where
  dev : σ
  rng : Nat → Nat

/-- The outcome of one handler invocation: its return value, the world it leaves, and the
events it caused, in order. -/
structure HandlerResult (σ : Type) where
  ret : Int
  sys : Sys σ
  trace : List Event

def ESP_OK : Int := 0

/-- The size of the request buffer, `sizeof(content)`. -/
def sizeof_content : Nat := 256

/-- The guard that opens every handler: `server == nullptr || server->robot_ == nullptr`
fails exactly when this is `none`. -/
def boundRobot {σ : Type} (req : httpd_req_t σ) : Option (IRobotActions σ) :=
  match req.user_ctx with
  | none => none
  | some server => server.robot_

def HandleDeviceInfo {σ : Type} (req : httpd_req_t σ) (sys : Sys σ) : HandlerResult σ :=
  match boundRobot req with
  | none =>
    { ret := ESP_OK, sys := sys, trace := [SendJsonResponse 500 "服务器错误" emptyObjectText] }
  | some robot =>
    let capabilities := robot.GetCapabilities sys.dev
    let caps_array := cJSON.jArray (capabilities.map cJSON.jString)
    let data := cJSON.jObject
      [("device_id", cJSON.jString (robot.GetDeviceId sys.dev)),
       ("model", cJSON.jString (robot.GetModel sys.dev)),
       ("capabilities", caps_array),
       ("fw_version", cJSON.jString (robot.GetFirmwareVersion sys.dev))]
    let data_str := cJSON_PrintUnformatted data
    { ret := ESP_OK, sys := sys, trace := [SendJsonResponse 200 "获取成功" data_str] }

def HandleDeviceAction {σ : Type} (req : httpd_req_t σ) (sys : Sys σ) : HandlerResult σ :=
  match boundRobot req with
  | none =>
    { ret := ESP_OK, sys := sys, trace := [SendJsonResponse 500 "服务器错误" emptyObjectText] }
  | some robot =>
    let content_len :=
      if req.content_len ≥ sizeof_content then sizeof_content - 1 else req.content_len
    let received := req.recv content_len
    let ret := received.1
    let content := received.2
    if ret ≤ 0 then
      { ret := ESP_OK, sys := sys, trace := [SendJsonResponse 400 "请求体为空" emptyObjectText] }
    else
      match cJSON_Parse content with
      | none =>
        { ret := ESP_OK, sys := sys,
          trace := [SendJsonResponse 400 "JSON解析失败" emptyObjectText] }
      | some root =>
        let action_json := cJSON_GetObjectItem root "action"
        let steps_json := cJSON_GetObjectItem root "steps"
        let speed_json := cJSON_GetObjectItem root "speed"
        -- `action_json == nullptr || action_json->valuestring == nullptr`
        match action_json.bind cJSON.valuestring with
        | none =>
          { ret := ESP_OK, sys := sys,
            trace := [SendJsonResponse 400 "缺少action参数" emptyObjectText] }
        | some action =>
          let steps : Int := match steps_json with
            | some j => if cJSON_IsNumber j then j.valueint else 4
            | none => 4
          let speed : Int := match speed_json with
            | some j => if cJSON_IsNumber j then j.valueint else 1000
            | none => 1000
          let executed := robot.ExecuteAction action steps speed sys.dev
          let success := executed.1
          if success then
            let generated := GenerateActionId sys.rng
            let action_id := generated.1
            let data : JsonText := some (cJSON.jObject [("action_id", cJSON.jString action_id)])
            { ret := ESP_OK, sys := { dev := executed.2, rng := generated.2 },
              trace := [Event.ExecuteAction action steps speed,
                        SendJsonResponse 200 "执行成功" data] }
          else
            { ret := ESP_OK, sys := { sys with dev := executed.2 },
              trace := [Event.ExecuteAction action steps speed,
                        SendJsonResponse 400 "动作执行失败" emptyObjectText] }

def HandleDeviceStatus {σ : Type} (req : httpd_req_t σ) (sys : Sys σ) : HandlerResult σ :=
  match boundRobot req with
  | none =>
    { ret := ESP_OK, sys := sys, trace := [SendJsonResponse 500 "服务器错误" emptyObjectText] }
  | some robot =>
    let data := cJSON.jObject
      [("action", cJSON.jString (robot.GetCurrentAction sys.dev)),
       ("is_idle", if robot.IsIdle sys.dev then cJSON.jTrue else cJSON.jFalse),
       ("battery", cJSON.jNumber (robot.GetBatteryLevel sys.dev)),
       ("volume", cJSON.jNumber (robot.GetVolume sys.dev))]
    let data_str := cJSON_PrintUnformatted data
    { ret := ESP_OK, sys := sys, trace := [SendJsonResponse 200 "获取成功" data_str] }

def HandleDeviceVolumeGet {σ : Type} (req : httpd_req_t σ) (sys : Sys σ) : HandlerResult σ :=
  match boundRobot req with
  | none =>
    { ret := ESP_OK, sys := sys, trace := [SendJsonResponse 500 "服务器错误" emptyObjectText] }
  | some robot =>
    let volume := robot.GetVolume sys.dev
    let data := cJSON.jObject [("volume", cJSON.jNumber volume)]
    let data_str := cJSON_PrintUnformatted data
    { ret := ESP_OK, sys := sys, trace := [SendJsonResponse 200 "获取成功" data_str] }

def HandleDeviceVolumeSet {σ : Type} (req : httpd_req_t σ) (sys : Sys σ) : HandlerResult σ :=
  match boundRobot req with
  | none =>
    { ret := ESP_OK, sys := sys, trace := [SendJsonResponse 500 "服务器错误" emptyObjectText] }
  | some robot =>
    let content_len :=
      if req.content_len ≥ sizeof_content then sizeof_content - 1 else req.content_len
    let received := req.recv content_len
    let ret := received.1
    let content := received.2
    if ret ≤ 0 then
      { ret := ESP_OK, sys := sys, trace := [SendJsonResponse 400 "请求体为空" emptyObjectText] }
    else
      match cJSON_Parse content with
      | none =>
        { ret := ESP_OK, sys := sys,
          trace := [SendJsonResponse 400 "JSON解析失败" emptyObjectText] }
      | some root =>
        let volume_json := cJSON_GetObjectItem root "volume"
        -- `volume_json == nullptr || !cJSON_IsNumber(volume_json)`
        match volume_json.filter cJSON_IsNumber with
        | none =>
          { ret := ESP_OK, sys := sys,
            trace := [SendJsonResponse 400 "缺少volume参数或参数类型错误" emptyObjectText] }
        | some volume_json =>
          let volume := volume_json.valueint
          let applied := robot.SetVolume volume sys.dev
          let success := applied.1
          if success then
            let data := cJSON.jObject [("volume", cJSON.jNumber (robot.GetVolume applied.2))]
            let data_str := cJSON_PrintUnformatted data
            { ret := ESP_OK, sys := { sys with dev := applied.2 },
              trace := [Event.SetVolume volume, SendJsonResponse 200 "音量设置成功" data_str] }
          else
            { ret := ESP_OK, sys := { sys with dev := applied.2 },
              trace := [Event.SetVolume volume,
                        SendJsonResponse 500 "音量设置失败" emptyObjectText] }

/-- What a handler that reads a body gets from `httpd_req_recv`: the requested length is
`content_len`, cut to `sizeof(content) - 1`. -/
def bodyRead {σ : Type} (req : httpd_req_t σ) : Int × JsonText :=
  req.recv (if req.content_len ≥ sizeof_content then sizeof_content - 1 else req.content_len)

/-- The handler function a route target names. -/
def runHandler {σ : Type} : HandlerFn → httpd_req_t σ → Sys σ → HandlerResult σ
  | .HandleDeviceInfo => HandleDeviceInfo
  | .HandleDeviceAction => HandleDeviceAction
  | .HandleDeviceStatus => HandleDeviceStatus
  | .HandleDeviceVolumeGet => HandleDeviceVolumeGet
  | .HandleDeviceVolumeSet => HandleDeviceVolumeSet

/-- The envelopes sent in a trace, in order. -/
def sent : List Event → List Response
  | [] => []
  | Event.Send r :: es => r :: sent es
  | _ :: es => sent es

/-- The `ExecuteAction` calls in a trace, in order, by their arguments. -/
def executed : List Event → List (String × Int × Int)
  | [] => []
  | Event.ExecuteAction a st sp :: es => (a, st, sp) :: executed es
  | _ :: es => executed es

/-- The member `volume` of a response's data, when it is there. -/
def Response.dataVolume (r : Response) : Option Int :=
  (cJSON_GetObjectItem r.data "volume").map cJSON.valueint

/-- The code, message and data of a response, for comparison. -/
def Response.is (r : Response) (code : Int) (message : String) (data : cJSON) : Prop :=
  r.code = code ∧ r.message = message ∧ r.data = data

/-- A controller whose state is the answer of `HasHands`, which accepts every action and is
always idle; used for concrete evaluations. -/
def sampleController : Controller Bool :=
  { IsIdle := fun _ => true
    GetCurrentAction := fun _ => ""
    ExecuteAction := fun _ _ _ k => (true, k)
    HasHands := fun k => k }

/-- A world whose board has no audio codec. -/
def worldNoCodec : World Bool := { board := { codec := none, battery := none }, ctrl := false }

/-- A world whose board has an audio codec at volume 70. -/
def worldCodec : World Bool :=
  { board := { codec := some { output_volume_ := 70 }, battery := some 80 }, ctrl := false }

/-- A running server bound to a Dog adaptor. -/
def dogServer : RobotApiServer (World Bool) :=
  (RobotApiServer.init (World Bool)).Start
    (some ((DogApiAdapter.new none).toIRobotActions sampleController "1.0.0")) 80 true

/-- A request handled by `server` whose body of `content_len` bytes arrives whole and has
the text `body`. -/
def wholeRequest {σ : Type} (server : Option (RobotApiServer σ)) (content_len : Nat)
    (body : JsonText) : httpd_req_t σ :=
  { user_ctx := server, content_len := content_len, recv := fun len => (len, body) }

/-- A random source: the i-th value is `7 * i + 5`. -/
def sampleRng : Nat → Nat := fun i => 7 * i + 5

/-- A world as `worldCodec` in which `PalqiqiControllerHasHands` answers true. -/
def worldHands : World Bool := { worldCodec with ctrl := true }

/-- The five routes, in the order `Start` registers them. -/
def fiveRoutes : List httpd_uri_t :=
  [RobotApiServer.device_info, RobotApiServer.device_action, RobotApiServer.device_status,
   RobotApiServer.device_volume_get, RobotApiServer.device_volume_set]

/-- A lifecycle call on the dispatcher: `Start(robot, port)` with the platform's answer to
`httpd_start`, or `Stop()`. -/
inductive LifecycleCall (σ : Type) where
  | callStart (robot : Option (IRobotActions σ)) (port : Nat) (httpd_start_ok : Bool) :
      LifecycleCall σ
  | callStop : LifecycleCall σ

/-- The state after one lifecycle call. -/
def RobotApiServer.call {σ : Type} (self : RobotApiServer σ) :
    LifecycleCall σ → RobotApiServer σ
  | .callStart robot port httpd_start_ok => self.Start robot port httpd_start_ok
  | .callStop => self.Stop

/-- The state after a sequence of lifecycle calls, made in order. -/
def RobotApiServer.calls {σ : Type} (self : RobotApiServer σ) (cs : List (LifecycleCall σ)) :
    RobotApiServer σ :=
  cs.foldl RobotApiServer.call self

/-- The envelope of the guard that opens every handler is the one with code 500 and the
message `服务器错误`. -/
def Response.isMissingBinding (r : Response) : Prop :=
  r.code = 500 ∧ r.message = "服务器错误"

/-- A Dog adaptor seen through the interface, for concrete evaluations. -/
def sampleDog : IRobotActions (World Bool) :=
  (DogApiAdapter.new none).toIRobotActions sampleController "1.0.0"

/-- A sequence of lifecycle calls: a start without device, a start whose listener fails, a
stop, a start that succeeds, and a further start without device. -/
def sampleCalls : List (LifecycleCall (World Bool)) :=
  [.callStart none 80 true, .callStart (some sampleDog) 80 false, .callStop,
   .callStart (some sampleDog) 8080 true, .callStart none 80 true]

/-! ## Volume: set then get (C1) -/

/-- C1, as stated, fails: on a board without an audio codec `SetVolume(50)` returns false and
`GetVolume()` then returns the default 100, not `max(0, min(100, 50)) = 50`; so for both
adaptors. -/
theorem C1_counterexample_no_codec :
    (DogApiAdapter.new none).GetVolume ((DogApiAdapter.new none).SetVolume 50 worldNoCodec).2
        = 100
      ∧ (PalqiqiApiAdapter.new none).GetVolume
          ((PalqiqiApiAdapter.new none).SetVolume 50 worldNoCodec).2 = 100
      ∧ (DogApiAdapter.new none).GetVolume ((DogApiAdapter.new none).SetVolume 50 worldNoCodec).2
        ≠ max 0 (min 100 50) := by
  refine ⟨rfl, rfl, ?_⟩
  decide

/-- C1, amended: for both adaptors and every integer `v`, when the board has an audio codec
`SetVolume(v)` returns true and `GetVolume()` then returns `max(0, min(100, v))`; when it has
none, `SetVolume(v)` returns false and `GetVolume()` returns the default 100. -/
theorem C1_set_then_get_volume {κ : Type} (dog : DogApiAdapter) (pal : PalqiqiApiAdapter)
    (v : Int) (w : World κ) :
    (w.board.codec.isSome = true →
        (dog.SetVolume v w).1 = true ∧ dog.GetVolume (dog.SetVolume v w).2 = max 0 (min 100 v)
        ∧ (pal.SetVolume v w).1 = true
        ∧ pal.GetVolume (pal.SetVolume v w).2 = max 0 (min 100 v))
    ∧ (w.board.codec = none →
        (dog.SetVolume v w).1 = false ∧ dog.GetVolume (dog.SetVolume v w).2 = 100
        ∧ (pal.SetVolume v w).1 = false ∧ pal.GetVolume (pal.SetVolume v w).2 = 100) := by
  have hclamp : (if (if v < 0 then 0 else v) > 100 then 100 else (if v < 0 then 0 else v))
      = max 0 (min 100 v) := by
    split_ifs <;> omega
  constructor
  · intro h
    obtain ⟨c, hc⟩ := Option.isSome_iff_exists.mp h
    simp [DogApiAdapter.SetVolume, DogApiAdapter.GetVolume, PalqiqiApiAdapter.SetVolume,
      PalqiqiApiAdapter.GetVolume, hc, AudioCodec.SetOutputVolume, AudioCodec.output_volume,
      hclamp]
  · intro h
    simp [DogApiAdapter.SetVolume, DogApiAdapter.GetVolume, PalqiqiApiAdapter.SetVolume,
      PalqiqiApiAdapter.GetVolume, h]

/-- C1, amended, at `v = 150` on a board with a codec, and on a board without one. -/
theorem C1_set_then_get_volume_witness :
    (worldCodec.board.codec.isSome = true
      ∧ (DogApiAdapter.new none).GetVolume ((DogApiAdapter.new none).SetVolume 150 worldCodec).2
          = max 0 (min 100 150))
    ∧ (worldNoCodec.board.codec = none
      ∧ (PalqiqiApiAdapter.new none).GetVolume
          ((PalqiqiApiAdapter.new none).SetVolume 150 worldNoCodec).2 = 100) :=
  ⟨⟨rfl, ((C1_set_then_get_volume (DogApiAdapter.new none) (PalqiqiApiAdapter.new none) 150
      worldCodec).1 rfl).2.1⟩,
   ⟨rfl, ((C1_set_then_get_volume (DogApiAdapter.new none) (PalqiqiApiAdapter.new none) 150
      worldNoCodec).2 rfl).2.2.2⟩⟩

/-! ## Volume-set route (C2) -/

/-- C2, as stated, fails: with a Dog adaptor bound whose board has no audio codec, a body
with the numeric field `volume = 50` is answered with code 500 and data without a `volume`
member, not with `data.volume = 50`. -/
theorem C2_counterexample_no_codec :
    (sent (HandleDeviceVolumeSet
        (wholeRequest (some dogServer) 13 (some (cJSON.jObject [("volume", cJSON.jNumber 50)])))
        { dev := worldNoCodec, rng := sampleRng }).trace).map
      (fun r => (r.code, r.dataVolume)) = [(500, none)] := by
  decide

/-- C2, amended: for every integer `v`, a volume-set request whose body is received and
parses to a JSON object with the numeric field `volume = v`, handled with a Dog or a Palqiqi
adaptor bound, is answered with exactly one envelope: when the board's audio codec is
available, code 200 with `data.volume = max(0, min(100, v))`; when it is not, code 500 with
empty data. -/
theorem C2_volume_set_answer {κ : Type} (dog : DogApiAdapter) (pal : PalqiqiApiAdapter)
    (C : Controller κ) (ver : String) (req : httpd_req_t (World κ)) (sys : Sys (World κ))
    (fields : List (String × cJSON)) (v : Int)
    (hbound : boundRobot req = some (dog.toIRobotActions C ver)
      ∨ boundRobot req = some (pal.toIRobotActions C ver))
    (hrecv : 0 < (bodyRead req).1)
    (hparse : cJSON_Parse (bodyRead req).2 = some (cJSON.jObject fields))
    (hvol : cJSON_GetObjectItem (cJSON.jObject fields) "volume" = some (cJSON.jNumber v)) :
    (sys.dev.board.codec.isSome = true →
      ∃ r, sent (HandleDeviceVolumeSet req sys).trace = [r]
        ∧ r.is 200 "音量设置成功" (cJSON.jObject [("volume", cJSON.jNumber (max 0 (min 100 v)))]))
    ∧ (sys.dev.board.codec = none →
      ∃ r, sent (HandleDeviceVolumeSet req sys).trace = [r]
        ∧ r.is 500 "音量设置失败" (cJSON.jObject [])) := by
  have hclamp : (if (if v < 0 then 0 else v) > 100 then 100 else (if v < 0 then 0 else v))
      = max 0 (min 100 v) := by
    split_ifs <;> omega
  simp only [bodyRead, cJSON_Parse, ge_iff_le] at hparse hrecv
  have hret := not_le.mpr hrecv
  constructor
  · intro h
    obtain ⟨c, hc⟩ := Option.isSome_iff_exists.mp h
    rcases hbound with hb | hb <;>
    simp [HandleDeviceVolumeSet, hb, hret, hparse, hvol, Option.filter, cJSON_IsNumber,
      cJSON.valueint, DogApiAdapter.toIRobotActions, PalqiqiApiAdapter.toIRobotActions,
      DogApiAdapter.SetVolume, DogApiAdapter.GetVolume, PalqiqiApiAdapter.SetVolume,
      PalqiqiApiAdapter.GetVolume, hc, AudioCodec.SetOutputVolume, AudioCodec.output_volume,
      hclamp, sent, SendJsonResponse, cJSON_Parse, cJSON_PrintUnformatted, Response.is]
  · intro h
    rcases hbound with hb | hb <;>
    simp [HandleDeviceVolumeSet, hb, hret, hparse, hvol, Option.filter, cJSON_IsNumber,
      cJSON.valueint, DogApiAdapter.toIRobotActions, PalqiqiApiAdapter.toIRobotActions,
      DogApiAdapter.SetVolume, PalqiqiApiAdapter.SetVolume, h, sent, SendJsonResponse,
      cJSON_Parse, emptyObjectText, Response.is]

/-- C2, amended, at the body with `volume = 150` on a board with a codec: `data.volume` is
`max(0, min(100, 150))`. -/
theorem C2_volume_set_answer_witness :
    ∃ r, sent (HandleDeviceVolumeSet
        (wholeRequest (some dogServer) 14 (some (cJSON.jObject [("volume", cJSON.jNumber 150)])))
        { dev := worldCodec, rng := sampleRng }).trace = [r]
      ∧ r.is 200 "音量设置成功"
          (cJSON.jObject [("volume", cJSON.jNumber (max 0 (min 100 150)))]) :=
  (C2_volume_set_answer (DogApiAdapter.new none) (PalqiqiApiAdapter.new none) sampleController
    "1.0.0"
    (wholeRequest (some dogServer) 14 (some (cJSON.jObject [("volume", cJSON.jNumber 150)])))
    { dev := worldCodec, rng := sampleRng } [("volume", cJSON.jNumber 150)] 150
    (Or.inl rfl) (by decide) rfl rfl).1 rfl

/-! ## Action route: shape of a handler run -/

/-- With a device bound, a run of the action handler is one of three: a 400 envelope with
empty data and no device call; one accepted `ExecuteAction` followed by the 200 envelope
carrying the generated id; one declined `ExecuteAction` followed by a 400 envelope. -/
theorem HandleDeviceAction_trace {σ : Type} (req : httpd_req_t σ) (sys : Sys σ)
    (robot : IRobotActions σ) (hbound : boundRobot req = some robot) :
    (∃ m, (HandleDeviceAction req sys).trace = [SendJsonResponse 400 m emptyObjectText])
    ∨ (∃ a st sp, (robot.ExecuteAction a st sp sys.dev).1 = true
        ∧ (HandleDeviceAction req sys).trace = [Event.ExecuteAction a st sp,
            SendJsonResponse 200 "执行成功"
              (some (cJSON.jObject [("action_id", cJSON.jString (GenerateActionId sys.rng).1)]))])
    ∨ (∃ a st sp, (robot.ExecuteAction a st sp sys.dev).1 = false
        ∧ (HandleDeviceAction req sys).trace = [Event.ExecuteAction a st sp,
            SendJsonResponse 400 "动作执行失败" emptyObjectText]) := by
  simp only [HandleDeviceAction, hbound]
  generalize req.recv _ = rcv
  by_cases hret : rcv.1 ≤ 0
  · rw [if_pos hret]
    exact Or.inl ⟨_, rfl⟩
  · rw [if_neg hret]
    cases hp : cJSON_Parse rcv.2 with
    | none => exact Or.inl ⟨_, rfl⟩
    | some root =>
      dsimp only
      cases ha : (cJSON_GetObjectItem root "action").bind cJSON.valuestring with
      | none => exact Or.inl ⟨_, rfl⟩
      | some action =>
        dsimp only
        split
        · rename_i h
          exact Or.inr (Or.inl ⟨_, _, _, h, rfl⟩)
        · rename_i h
          exact Or.inr (Or.inr ⟨_, _, _, by simpa using h, rfl⟩)

/-- An object none of whose field names matches has no item under that name. -/
theorem cJSON_GetObjectItem_none (fields : List (String × cJSON)) (name : String)
    (h : ∀ kv ∈ fields, case_insensitive_eq name kv.1 = false) :
    cJSON_GetObjectItem (cJSON.jObject fields) name = none := by
  simp only [cJSON_GetObjectItem, Option.map_eq_none', List.find?_eq_none]
  intro kv hkv
  simp [h kv hkv]

/-! ## Action route: missing `action` (C3) -/

/-- C3: with a device bound, an action request whose body is received and parses to a JSON
object with no field named `action` (names compared as `cJSON_GetObjectItem` compares them,
ignoring ASCII case) is answered with exactly one envelope, of code 400 and with the message
`缺少action参数`, which names the `action` field; `ExecuteAction` is not called and the device
world is left as it was. -/
theorem C3_missing_action_rejected {σ : Type} (req : httpd_req_t σ) (sys : Sys σ)
    (robot : IRobotActions σ) (fields : List (String × cJSON))
    (hbound : boundRobot req = some robot)
    (hrecv : 0 < (bodyRead req).1)
    (hparse : cJSON_Parse (bodyRead req).2 = some (cJSON.jObject fields))
    (hmissing : ∀ kv ∈ fields, case_insensitive_eq "action" kv.1 = false) :
    (∃ r, sent (HandleDeviceAction req sys).trace = [r]
        ∧ r.is 400 "缺少action参数" (cJSON.jObject [])
        ∧ r.message = "缺少" ++ "action" ++ "参数")
    ∧ executed (HandleDeviceAction req sys).trace = []
    ∧ (HandleDeviceAction req sys).sys.dev = sys.dev := by
  have hnone := cJSON_GetObjectItem_none fields "action" hmissing
  simp only [bodyRead, cJSON_Parse, ge_iff_le] at hparse hrecv
  have hret := not_le.mpr hrecv
  simp [HandleDeviceAction, hbound, hret, hparse, hnone, sent, executed, SendJsonResponse,
    cJSON_Parse, emptyObjectText, Response.is]

/-- C3 at the body with the single field `steps = 3`: one envelope of code 400, no call of
`ExecuteAction`. -/
theorem C3_missing_action_rejected_witness :
    (∃ r, sent (HandleDeviceAction
          (wholeRequest (some dogServer) 11 (some (cJSON.jObject [("steps", cJSON.jNumber 3)])))
          { dev := worldCodec, rng := sampleRng }).trace = [r]
        ∧ r.is 400 "缺少action参数" (cJSON.jObject [])
        ∧ r.message = "缺少" ++ "action" ++ "参数")
    ∧ executed (HandleDeviceAction
          (wholeRequest (some dogServer) 11 (some (cJSON.jObject [("steps", cJSON.jNumber 3)])))
          { dev := worldCodec, rng := sampleRng }).trace = []
    ∧ (HandleDeviceAction
          (wholeRequest (some dogServer) 11 (some (cJSON.jObject [("steps", cJSON.jNumber 3)])))
          { dev := worldCodec, rng := sampleRng }).sys.dev = worldCodec :=
  C3_missing_action_rejected
    (wholeRequest (some dogServer) 11 (some (cJSON.jObject [("steps", cJSON.jNumber 3)])))
    { dev := worldCodec, rng := sampleRng }
    ((DogApiAdapter.new none).toIRobotActions sampleController "1.0.0")
    [("steps", cJSON.jNumber 3)] rfl (by decide) rfl
    (by
      intro kv hkv
      rw [List.mem_singleton] at hkv
      subst hkv
      decide)

/-! ## Action route: defaults of `steps` and `speed` (C4) -/

/-- C4: with a device bound, an action request whose body is received and parses to a
document with a string `action` field makes the handler call `ExecuteAction(action, steps,
speed)` exactly once, where `steps` is 4 when the `steps` field is missing and the field's
integer value when it is a number, and `speed` is 1000 when the `speed` field is missing and
the field's integer value when it is a number. -/
theorem C4_action_defaults {σ : Type} (req : httpd_req_t σ) (sys : Sys σ)
    (robot : IRobotActions σ) (root : cJSON) (action : String)
    (hbound : boundRobot req = some robot)
    (hrecv : 0 < (bodyRead req).1)
    (hparse : cJSON_Parse (bodyRead req).2 = some root)
    (haction : cJSON_GetObjectItem root "action" = some (cJSON.jString action)) :
    ∃ steps speed, executed (HandleDeviceAction req sys).trace = [(action, steps, speed)]
      ∧ (cJSON_GetObjectItem root "steps" = none → steps = 4)
      ∧ (∀ n, cJSON_GetObjectItem root "steps" = some (cJSON.jNumber n) → steps = n)
      ∧ (cJSON_GetObjectItem root "speed" = none → speed = 1000)
      ∧ (∀ n, cJSON_GetObjectItem root "speed" = some (cJSON.jNumber n) → speed = n) := by
  simp only [bodyRead, cJSON_Parse, ge_iff_le] at hparse hrecv
  have hret := not_le.mpr hrecv
  refine ⟨match cJSON_GetObjectItem root "steps" with
      | some j => if cJSON_IsNumber j then j.valueint else 4
      | none => 4,
    match cJSON_GetObjectItem root "speed" with
      | some j => if cJSON_IsNumber j then j.valueint else 1000
      | none => 1000, ?_, ?_, ?_, ?_, ?_⟩
  · have hval : (cJSON_GetObjectItem root "action").bind cJSON.valuestring = some action := by
      rw [haction]
      rfl
    simp only [HandleDeviceAction, hbound, ge_iff_le, hret, if_false, cJSON_Parse, hparse, hval]
    split <;> simp [executed, SendJsonResponse]
  · intro h
    simp [h]
  · intro n h
    simp [h, cJSON_IsNumber, cJSON.valueint]
  · intro h
    simp [h]
  · intro n h
    simp [h, cJSON_IsNumber, cJSON.valueint]

/-- C4 at the body with `action = "walk_forward"` and `speed = 500`: one call, with the
default `steps` and the supplied `speed`. -/
theorem C4_action_defaults_witness :
    ∃ steps speed, executed (HandleDeviceAction
          (wholeRequest (some dogServer) 40 (some (cJSON.jObject
            [("action", cJSON.jString "walk_forward"), ("speed", cJSON.jNumber 500)])))
          { dev := worldCodec, rng := sampleRng }).trace = [("walk_forward", steps, speed)]
      ∧ (cJSON_GetObjectItem (cJSON.jObject
            [("action", cJSON.jString "walk_forward"), ("speed", cJSON.jNumber 500)]) "steps"
          = none → steps = 4)
      ∧ (∀ n, cJSON_GetObjectItem (cJSON.jObject
            [("action", cJSON.jString "walk_forward"), ("speed", cJSON.jNumber 500)]) "steps"
          = some (cJSON.jNumber n) → steps = n)
      ∧ (cJSON_GetObjectItem (cJSON.jObject
            [("action", cJSON.jString "walk_forward"), ("speed", cJSON.jNumber 500)]) "speed"
          = none → speed = 1000)
      ∧ (∀ n, cJSON_GetObjectItem (cJSON.jObject
            [("action", cJSON.jString "walk_forward"), ("speed", cJSON.jNumber 500)]) "speed"
          = some (cJSON.jNumber n) → speed = n) :=
  C4_action_defaults
    (wholeRequest (some dogServer) 40 (some (cJSON.jObject
      [("action", cJSON.jString "walk_forward"), ("speed", cJSON.jNumber 500)])))
    { dev := worldCodec, rng := sampleRng }
    ((DogApiAdapter.new none).toIRobotActions sampleController "1.0.0")
    (cJSON.jObject [("action", cJSON.jString "walk_forward"), ("speed", cJSON.jNumber 500)])
    "walk_forward" rfl (by decide) rfl rfl

/-! ## Action ids (C5) -/

/-- The alphabet has 36 symbols, one less than `sizeof(charset)`. -/
theorem sizeof_charset_pred : sizeof_charset - 1 = 36 ∧ charset.length = 36 := by
  decide

/-- Every selected character is a symbol of the alphabet. -/
theorem charsetAt_mem (r : Nat) : charsetAt r ∈ charset := by
  have hlt : r % (sizeof_charset - 1) < charset.length := by
    rw [sizeof_charset_pred.1, sizeof_charset_pred.2]
    exact Nat.mod_lt _ (by decide)
  unfold charsetAt
  rw [List.getD_eq_getElem _ _ hlt]
  exact List.getElem_mem _

/-- Every symbol of the alphabet is a digit or a lowercase letter. -/
theorem charset_alnum : ∀ c ∈ charset, (c.isDigit || c.isLower) = true := by
  decide

/-- The loop appends exactly `n` characters. -/
theorem GenerateActionId_loop_length (n : Nat) (rng : Nat → Nat) (id : List Char) :
    (GenerateActionId.loop n rng id).1.length = id.length + n := by
  induction n generalizing rng id with
  | zero => simp [GenerateActionId.loop]
  | succ n ih =>
    simp only [GenerateActionId.loop]
    rw [ih]
    simp only [List.length_append, List.length_singleton]
    omega

/-- The loop appends symbols of the alphabet only. -/
theorem GenerateActionId_loop_mem (n : Nat) (rng : Nat → Nat) (id : List Char)
    (hid : ∀ c ∈ id, c ∈ charset) : ∀ c ∈ (GenerateActionId.loop n rng id).1, c ∈ charset := by
  induction n generalizing rng id with
  | zero => simpa [GenerateActionId.loop] using hid
  | succ n ih =>
    simp only [GenerateActionId.loop]
    apply ih
    intro c hc
    rcases List.mem_append.mp hc with h | h
    · exact hid c h
    · rw [List.mem_singleton] at h
      rw [h]
      exact charsetAt_mem _

/-- Whatever the random source returns, the generated id has 6 characters, each a symbol of
the alphabet. -/
theorem GenerateActionId_shape (rng : Nat → Nat) :
    (GenerateActionId rng).1.length = 6
      ∧ ∀ c ∈ (GenerateActionId rng).1.toList, c ∈ charset := by
  constructor
  · simp [GenerateActionId, String.length, GenerateActionId_loop_length]
  · intro c hc
    exact GenerateActionId_loop_mem 6 rng [] (by simp) c (by simpa [GenerateActionId] using hc)

/-- C5: with a device bound, for every action request on which the handler calls
`ExecuteAction(a, st, sp)` and for every random source: when the device accepts (the call
returns true) the single response has code 200 and data with one member `action_id`, a
string of exactly 6 characters, each in `[0-9a-z]`; when the device declines, the single
response has code 400 and empty data, so no `action_id`. -/
theorem C5_accepted_action_id {σ : Type} (req : httpd_req_t σ) (sys : Sys σ)
    (robot : IRobotActions σ) (a : String) (st sp : Int)
    (hbound : boundRobot req = some robot)
    (hcall : executed (HandleDeviceAction req sys).trace = [(a, st, sp)]) :
    ((robot.ExecuteAction a st sp sys.dev).1 = true →
      ∃ r id, sent (HandleDeviceAction req sys).trace = [r]
        ∧ r.is 200 "执行成功" (cJSON.jObject [("action_id", cJSON.jString id)])
        ∧ id.length = 6
        ∧ ∀ c ∈ id.toList, c ∈ charset ∧ (c.isDigit || c.isLower) = true)
    ∧ ((robot.ExecuteAction a st sp sys.dev).1 = false →
      ∃ r, sent (HandleDeviceAction req sys).trace = [r]
        ∧ r.is 400 "动作执行失败" (cJSON.jObject [])
        ∧ cJSON_GetObjectItem r.data "action_id" = none) := by
  rcases HandleDeviceAction_trace req sys robot hbound with
    ⟨m, ht⟩ | ⟨a1, st1, sp1, hacc, ht⟩ | ⟨a1, st1, sp1, hacc, ht⟩
  · rw [ht] at hcall
    simp [executed, SendJsonResponse] at hcall
  · rw [ht] at hcall
    simp only [executed, SendJsonResponse, List.cons.injEq, Prod.mk.injEq, and_true] at hcall
    obtain ⟨rfl, rfl, rfl⟩ := hcall
    constructor
    · intro _
      rw [ht]
      simp only [sent, SendJsonResponse, cJSON_Parse]
      exact ⟨_, (GenerateActionId sys.rng).1, rfl, ⟨rfl, rfl, rfl⟩,
        (GenerateActionId_shape sys.rng).1,
        fun c hc => ⟨(GenerateActionId_shape sys.rng).2 c hc,
          charset_alnum c ((GenerateActionId_shape sys.rng).2 c hc)⟩⟩
    · intro h
      rw [hacc] at h
      exact absurd h (by decide)
  · rw [ht] at hcall
    simp only [executed, SendJsonResponse, List.cons.injEq, Prod.mk.injEq, and_true] at hcall
    obtain ⟨rfl, rfl, rfl⟩ := hcall
    constructor
    · intro h
      rw [hacc] at h
      exact absurd h (by decide)
    · intro _
      rw [ht]
      simp only [sent, SendJsonResponse, cJSON_Parse, emptyObjectText]
      exact ⟨_, rfl, ⟨rfl, rfl, rfl⟩, rfl⟩

/-- C5 at the body with `action = "walk_forward"` only, accepted by the device: code 200 and
a 6-character `action_id` over the alphabet. -/
theorem C5_accepted_action_id_witness :
    ∃ r id, sent (HandleDeviceAction
          (wholeRequest (some dogServer) 25
            (some (cJSON.jObject [("action", cJSON.jString "walk_forward")])))
          { dev := worldCodec, rng := sampleRng }).trace = [r]
        ∧ r.is 200 "执行成功" (cJSON.jObject [("action_id", cJSON.jString id)])
        ∧ id.length = 6
        ∧ ∀ c ∈ id.toList, c ∈ charset ∧ (c.isDigit || c.isLower) = true :=
  (C5_accepted_action_id
    (wholeRequest (some dogServer) 25
      (some (cJSON.jObject [("action", cJSON.jString "walk_forward")])))
    { dev := worldCodec, rng := sampleRng }
    ((DogApiAdapter.new none).toIRobotActions sampleController "1.0.0")
    "walk_forward" 4 1000 rfl (by decide)).1 rfl

/-! ## Every handler answers (C6) -/

/-- A run of the volume-set handler sends exactly one envelope. -/
theorem HandleDeviceVolumeSet_sent_length {σ : Type} (req : httpd_req_t σ) (sys : Sys σ) :
    (sent (HandleDeviceVolumeSet req sys).trace).length = 1 := by
  unfold HandleDeviceVolumeSet
  cases hb : boundRobot req with
  | none => simp [sent, SendJsonResponse]
  | some robot =>
    dsimp only
    generalize req.recv _ = rcv
    by_cases hret : rcv.1 ≤ 0
    · rw [if_pos hret]
      simp [sent, SendJsonResponse]
    · rw [if_neg hret]
      cases hp : cJSON_Parse rcv.2 with
      | none => simp [sent, SendJsonResponse]
      | some root =>
        dsimp only
        cases hv : (cJSON_GetObjectItem root "volume").filter cJSON_IsNumber with
        | none => simp [sent, SendJsonResponse]
        | some volume_json =>
          dsimp only
          split <;> simp [sent, SendJsonResponse]

/-- A run of the action handler sends exactly one envelope. -/
theorem HandleDeviceAction_sent_length {σ : Type} (req : httpd_req_t σ) (sys : Sys σ) :
    (sent (HandleDeviceAction req sys).trace).length = 1 := by
  cases hb : boundRobot req with
  | none => simp [HandleDeviceAction, hb, sent, SendJsonResponse]
  | some robot =>
    rcases HandleDeviceAction_trace req sys robot hb with
      ⟨m, ht⟩ | ⟨a, st, sp, _, ht⟩ | ⟨a, st, sp, _, ht⟩ <;>
    rw [ht] <;> simp [sent, SendJsonResponse]

/-- The action handler returns `ESP_OK` on every path. -/
theorem HandleDeviceAction_ret {σ : Type} (req : httpd_req_t σ) (sys : Sys σ) :
    (HandleDeviceAction req sys).ret = ESP_OK := by
  unfold HandleDeviceAction
  cases boundRobot req with
  | none => rfl
  | some robot =>
    dsimp only
    generalize req.recv _ = rcv
    by_cases hret : rcv.1 ≤ 0
    · rw [if_pos hret]
    · rw [if_neg hret]
      cases cJSON_Parse rcv.2 with
      | none => rfl
      | some root =>
        dsimp only
        cases (cJSON_GetObjectItem root "action").bind cJSON.valuestring with
        | none => rfl
        | some action =>
          dsimp only
          split <;> rfl

/-- The volume-set handler returns `ESP_OK` on every path. -/
theorem HandleDeviceVolumeSet_ret {σ : Type} (req : httpd_req_t σ) (sys : Sys σ) :
    (HandleDeviceVolumeSet req sys).ret = ESP_OK := by
  unfold HandleDeviceVolumeSet
  cases boundRobot req with
  | none => rfl
  | some robot =>
    dsimp only
    generalize req.recv _ = rcv
    by_cases hret : rcv.1 ≤ 0
    · rw [if_pos hret]
    · rw [if_neg hret]
      cases cJSON_Parse rcv.2 with
      | none => rfl
      | some root =>
        dsimp only
        cases (cJSON_GetObjectItem root "volume").filter cJSON_IsNumber with
        | none => rfl
        | some volume_json =>
          dsimp only
          split <;> rfl

/-- C6: each of the five handlers, for every request (whatever `user_ctx`, `content_len` and
the outcome of receiving and parsing the body) and every device world, sends exactly one
response envelope and returns `ESP_OK`; when no device is bound (`user_ctx` is null or its
`robot_` is null) that envelope has code 500 and empty-object data, and the device is not
called. -/
theorem C6_every_handler_answers {σ : Type} (h : HandlerFn) (req : httpd_req_t σ)
    (sys : Sys σ) :
    (sent (runHandler h req sys).trace).length = 1
    ∧ (runHandler h req sys).ret = ESP_OK
    ∧ (boundRobot req = none →
        ∃ r, (runHandler h req sys).trace = [Event.Send r]
          ∧ r.is 500 "服务器错误" (cJSON.jObject [])) := by
  refine ⟨?_, ?_, ?_⟩
  · cases h with
    | HandleDeviceInfo =>
      simp only [runHandler, HandleDeviceInfo]
      cases boundRobot req <;> simp [sent, SendJsonResponse]
    | HandleDeviceAction => exact HandleDeviceAction_sent_length req sys
    | HandleDeviceStatus =>
      simp only [runHandler, HandleDeviceStatus]
      cases boundRobot req <;> simp [sent, SendJsonResponse]
    | HandleDeviceVolumeGet =>
      simp only [runHandler, HandleDeviceVolumeGet]
      cases boundRobot req <;> simp [sent, SendJsonResponse]
    | HandleDeviceVolumeSet => exact HandleDeviceVolumeSet_sent_length req sys
  · cases h with
    | HandleDeviceInfo =>
      simp only [runHandler, HandleDeviceInfo]
      cases boundRobot req <;> rfl
    | HandleDeviceAction => exact HandleDeviceAction_ret req sys
    | HandleDeviceStatus =>
      simp only [runHandler, HandleDeviceStatus]
      cases boundRobot req <;> rfl
    | HandleDeviceVolumeGet =>
      simp only [runHandler, HandleDeviceVolumeGet]
      cases boundRobot req <;> rfl
    | HandleDeviceVolumeSet => exact HandleDeviceVolumeSet_ret req sys
  · intro hb
    cases h <;>
    simp [runHandler, HandleDeviceInfo, HandleDeviceAction, HandleDeviceStatus,
      HandleDeviceVolumeGet, HandleDeviceVolumeSet, hb, SendJsonResponse, cJSON_Parse,
      emptyObjectText, Response.is]

/-- C6 at a volume-get request handled by a server that was never started, so that no device
is bound: one envelope, of code 500 and with empty data. -/
theorem C6_every_handler_answers_witness :
    ∃ r, (runHandler HandlerFn.HandleDeviceVolumeGet
          (wholeRequest (some (RobotApiServer.init (World Bool))) 0 none)
          { dev := worldCodec, rng := sampleRng }).trace = [Event.Send r]
      ∧ r.is 500 "服务器错误" (cJSON.jObject []) :=
  (C6_every_handler_answers HandlerFn.HandleDeviceVolumeGet
    (wholeRequest (some (RobotApiServer.init (World Bool))) 0 none)
    { dev := worldCodec, rng := sampleRng }).2.2 rfl

/-! ## Lifecycle: Start while running (C7) -/

/-- C7: a `Start(robot, port)` on a running server changes nothing: the listener handle with
its registered routes and the bound device are as before, whatever `robot`, `port` and the
platform's answer; in particular, after a successful `Start` of a stopped server with device
`d`, a second `Start` leaves the listener on the first port with exactly the five routes and
`d` as the one bound device. -/
theorem C7_start_while_running {σ : Type} (robot : Option (IRobotActions σ)) (port : Nat)
    (ok : Bool) :
    (∀ s : RobotApiServer σ, s.IsRunning = true → s.Start robot port ok = s)
    ∧ (∀ (s0 : RobotApiServer σ) (d : IRobotActions σ) (p : Nat), s0.IsRunning = false →
        (s0.Start (some d) p true).Start robot port ok =
          { server_ := some
              { config := { server_port := p, max_uri_handlers := 8, recv_wait_timeout := 10,
                            send_wait_timeout := 10 },
                uri_handlers := fiveRoutes },
            robot_ := some d }) := by
  constructor
  · intro s hs
    simp only [RobotApiServer.IsRunning] at hs
    simp [RobotApiServer.Start, hs]
  · intro s0 d p hs
    have hfirst : s0.Start (some d) p true =
        { server_ := some
            { config := { server_port := p, max_uri_handlers := 8, recv_wait_timeout := 10,
                          send_wait_timeout := 10 },
              uri_handlers := fiveRoutes },
          robot_ := some d } := by
      cases s0 with
      | mk srv rb =>
        cases srv with
        | none => rfl
        | some handle => exact absurd hs (by simp [RobotApiServer.IsRunning])
    rw [hfirst]
    rfl

/-- C7 at the running Dog server: a second `Start` with no device on another port is a
no-op. -/
theorem C7_start_while_running_witness :
    dogServer.Start none 8080 true = dogServer :=
  (C7_start_while_running none 8080 true).1 dogServer rfl

/-! ## Lifecycle: Stop (C8) -/

/-- C8, as stated, fails: after `Stop()` on the running Dog server the listener is released
but the device is still bound (`robot_` is not reset). -/
theorem C8_counterexample_binding_kept :
    dogServer.IsRunning = true ∧ dogServer.Stop.IsRunning = false
      ∧ dogServer.Stop.robot_.isSome = true := by
  refine ⟨rfl, rfl, rfl⟩

/-- C8, amended: for every dispatcher state, after `Stop()` `IsRunning()` is false and the
device binding is what it was before; a second `Stop()` leaves that state unchanged. -/
theorem C8_stop_idempotent {σ : Type} (s : RobotApiServer σ) :
    s.Stop.IsRunning = false ∧ s.Stop.robot_ = s.robot_ ∧ s.Stop.Stop = s.Stop := by
  cases s with
  | mk srv rb =>
    cases srv <;> simp [RobotApiServer.Stop, RobotApiServer.IsRunning]

/-! ## Capabilities (C9) -/

/-- C9, as stated, fails for the Palqiqi adaptor: the same adaptor returns a list with the
three hand capabilities when `PalqiqiControllerHasHands` answers true at the call and a list
without them when it answers false. -/
theorem C9_counterexample_hands :
    (PalqiqiApiAdapter.new none).GetCapabilities sampleController worldHands
      ≠ (PalqiqiApiAdapter.new none).GetCapabilities sampleController worldCodec := by
  decide

/-- C9, amended: the Dog adaptor returns the same ordered list on every call; the Palqiqi
adaptor returns the list determined by the answer of `PalqiqiControllerHasHands` at the time
of the call, so two calls return the same ordered list exactly when the query answers the
same at both. -/
theorem C9_capabilities_stable {κ : Type} (dog : DogApiAdapter) (pal : PalqiqiApiAdapter)
    (C : Controller κ) (ver : String) (w w' : World κ) :
    (dog.toIRobotActions C ver).GetCapabilities w = (dog.toIRobotActions C ver).GetCapabilities w'
    ∧ ((pal.toIRobotActions C ver).GetCapabilities w
          = (pal.toIRobotActions C ver).GetCapabilities w'
        ↔ C.HasHands w.ctrl = C.HasHands w'.ctrl) := by
  constructor
  · rfl
  · simp only [PalqiqiApiAdapter.toIRobotActions, PalqiqiApiAdapter.GetCapabilities]
    cases C.HasHands w.ctrl <;> cases C.HasHands w'.ctrl <;> decide

/-- C9, amended, at two worlds in which the query answers true: the lists agree. -/
theorem C9_capabilities_stable_witness :
    ((PalqiqiApiAdapter.new none).toIRobotActions sampleController "1.0.0").GetCapabilities
        worldHands
      = ((PalqiqiApiAdapter.new none).toIRobotActions sampleController "1.0.0").GetCapabilities
        { worldNoCodec with ctrl := true } :=
  (C9_capabilities_stable (DogApiAdapter.new none) (PalqiqiApiAdapter.new none)
    sampleController "1.0.0" worldHands { worldNoCodec with ctrl := true }).2.mpr rfl

/-! ## Distribution of the selected symbol (C10) -/

/-- The symbols of the alphabet are pairwise distinct. -/
theorem charset_nodup : charset.Nodup := by
  decide

/-- A source value selects the symbol at index `k` exactly when it is `k` modulo 36. -/
theorem charsetAt_eq_iff (k : Nat) (hk : k < 36) (r : Nat) :
    charsetAt r = charset.getD k (Char.ofNat 0) ↔ r % 36 = k := by
  have hlen : charset.length = 36 := sizeof_charset_pred.2
  have hr : r % 36 < charset.length := by
    rw [hlen]
    exact Nat.mod_lt _ (by decide)
  have hk2 : k < charset.length := by
    rw [hlen]
    exact hk
  unfold charsetAt
  rw [sizeof_charset_pred.1, List.getD_eq_getElem _ _ hr, List.getD_eq_getElem _ _ hk2]
  exact charset_nodup.getElem_inj_iff

/-- Among the source values below `b`, the symbol at index `k` is selected by `b / 36` values,
and by one more when `k < b % 36`. -/
theorem count_charsetAt (k : Nat) (hk : k < 36) (b : Nat) :
    Nat.count (fun r => charsetAt r = charset.getD k (Char.ofNat 0)) b
      = b / 36 + if k < b % 36 then 1 else 0 := by
  have hmod := Nat.count_modEq_card (b := b) (r := 36) (by decide) k
  rw [Nat.mod_eq_of_lt hk] at hmod
  rw [← hmod, Nat.count_eq_card_filter_range, Nat.count_eq_card_filter_range]
  congr 1
  apply Finset.filter_congr
  intro r _
  rw [charsetAt_eq_iff k hk r]
  unfold Nat.ModEq
  rw [Nat.mod_eq_of_lt hk]

/-- C10, as stated, fails: of the 2^32 source values, 119304648 select the symbol `0` and
119304647 select the symbol `z`. -/
theorem C10_counterexample_bias :
    Nat.count (fun r => charsetAt r = '0') (2 ^ 32) = 119304648
      ∧ Nat.count (fun r => charsetAt r = 'z') (2 ^ 32) = 119304647
      ∧ Nat.count (fun r => charsetAt r = '0') (2 ^ 32)
        ≠ Nat.count (fun r => charsetAt r = 'z') (2 ^ 32) := by
  have h0 := count_charsetAt 0 (by decide) (2 ^ 32)
  have h35 := count_charsetAt 35 (by decide) (2 ^ 32)
  have e0 : charset.getD 0 (Char.ofNat 0) = '0' := by decide
  have e35 : charset.getD 35 (Char.ofNat 0) = 'z' := by decide
  rw [e0] at h0
  rw [e35] at h35
  norm_num at h0 h35
  exact ⟨h0, h35, fun h => absurd (h0.symm.trans (h.trans h35)) (by decide)⟩

/-- C10, amended: under `r -> charset[r mod 36]` with `r` ranging over the 2^32 values of the
random source, the symbol at index `k` of the alphabet is selected by 119304648 source values
when `k < 4` (the symbols `0` to `3`) and by 119304647 when `4 ≤ k < 36`; the counts differ by
one, so each character of an id is close to uniform but not uniform. -/
theorem C10_selection_counts (k : Fin 36) :
    Nat.count (fun r => charsetAt r = charset.getD k.val (Char.ofNat 0)) (2 ^ 32)
      = 119304647 + if k.val < 4 then 1 else 0 := by
  rw [count_charsetAt k.val k.isLt (2 ^ 32)]
  norm_num

/-! ## Lifecycle invariant: a running server has a device (C11) -/

/-- One lifecycle call keeps the invariant that a running server has a device bound. -/
theorem call_keeps_bound {σ : Type} (s : RobotApiServer σ) (c : LifecycleCall σ)
    (hinv : s.IsRunning = true → s.robot_.isSome = true) :
    (s.call c).IsRunning = true → (s.call c).robot_.isSome = true := by
  cases s with
  | mk srv rb =>
    cases c with
    | callStop =>
      cases srv <;> simp [RobotApiServer.call, RobotApiServer.Stop, RobotApiServer.IsRunning]
    | callStart robot port ok =>
      cases srv with
      | some handle =>
        simpa [RobotApiServer.call, RobotApiServer.Start, RobotApiServer.IsRunning] using hinv
      | none =>
        cases robot with
        | none => simp [RobotApiServer.call, RobotApiServer.Start, RobotApiServer.IsRunning]
        | some d =>
          cases ok <;>
          simp [RobotApiServer.call, RobotApiServer.Start, RobotApiServer.IsRunning, httpd_start]

/-- A sequence of lifecycle calls keeps the invariant. -/
theorem calls_keep_bound {σ : Type} (cs : List (LifecycleCall σ)) (s : RobotApiServer σ)
    (hinv : s.IsRunning = true → s.robot_.isSome = true) :
    (s.calls cs).IsRunning = true → (s.calls cs).robot_.isSome = true := by
  induction cs generalizing s with
  | nil => exact hinv
  | cons c cs ih =>
    simp only [RobotApiServer.calls, List.foldl_cons]
    exact ih (s.call c) (call_keeps_bound s c hinv)

/-- With a device bound, no envelope sent by the volume-set handler is the one of the
missing-binding guard. -/
theorem HandleDeviceVolumeSet_not_missing {σ : Type} (req : httpd_req_t σ) (sys : Sys σ)
    (robot : IRobotActions σ) (hbound : boundRobot req = some robot) :
    ∀ r ∈ sent (HandleDeviceVolumeSet req sys).trace, ¬ r.isMissingBinding := by
  have hmsg : ¬ ("音量设置失败" = "服务器错误") := by decide
  simp only [HandleDeviceVolumeSet, hbound]
  generalize req.recv _ = rcv
  by_cases hret : rcv.1 ≤ 0
  · rw [if_pos hret]
    simp [sent, SendJsonResponse, Response.isMissingBinding]
  · rw [if_neg hret]
    cases hp : cJSON_Parse rcv.2 with
    | none => simp [sent, SendJsonResponse, Response.isMissingBinding]
    | some root =>
      dsimp only
      cases hv : (cJSON_GetObjectItem root "volume").filter cJSON_IsNumber with
      | none => simp [sent, SendJsonResponse, Response.isMissingBinding]
      | some volume_json =>
        dsimp only
        split <;> simp [sent, SendJsonResponse, Response.isMissingBinding, hmsg]

/-- With a device bound, no envelope sent by any handler is the one of the missing-binding
guard. -/
theorem bound_not_missing {σ : Type} (h : HandlerFn) (req : httpd_req_t σ) (sys : Sys σ)
    (robot : IRobotActions σ) (hbound : boundRobot req = some robot) :
    ∀ r ∈ sent (runHandler h req sys).trace, ¬ r.isMissingBinding := by
  cases h with
  | HandleDeviceInfo =>
    simp [runHandler, HandleDeviceInfo, hbound, sent, SendJsonResponse,
      Response.isMissingBinding]
  | HandleDeviceAction =>
    simp only [runHandler]
    rcases HandleDeviceAction_trace req sys robot hbound with
      ⟨m, ht⟩ | ⟨a, st, sp, _, ht⟩ | ⟨a, st, sp, _, ht⟩ <;>
    rw [ht] <;> simp [sent, SendJsonResponse, Response.isMissingBinding]
  | HandleDeviceStatus =>
    simp [runHandler, HandleDeviceStatus, hbound, sent, SendJsonResponse,
      Response.isMissingBinding]
  | HandleDeviceVolumeGet =>
    simp [runHandler, HandleDeviceVolumeGet, hbound, sent, SendJsonResponse,
      Response.isMissingBinding]
  | HandleDeviceVolumeSet => exact HandleDeviceVolumeSet_not_missing req sys robot hbound

/-- C11: in every dispatcher state reached from the initial state (not running, no device)
by a sequence of `Start(device, port)` and `Stop()` calls, with the listener start succeeding
or failing at each `Start`, a running server has a non-null device bound; so for a request
handled by that server the guard of every handler finds the device, and no handler sends the
code-500 missing-binding envelope. -/
theorem C11_running_implies_bound {σ : Type} (cs : List (LifecycleCall σ))
    (hrun : ((RobotApiServer.init σ).calls cs).IsRunning = true) :
    ∃ robot, ((RobotApiServer.init σ).calls cs).robot_ = some robot
      ∧ ∀ req : httpd_req_t σ, req.user_ctx = some ((RobotApiServer.init σ).calls cs) →
          boundRobot req = some robot
          ∧ ∀ (h : HandlerFn) (sys : Sys σ), ∀ r ∈ sent (runHandler h req sys).trace,
              ¬ r.isMissingBinding := by
  have hsome := calls_keep_bound cs (RobotApiServer.init σ)
    (by simp [RobotApiServer.init, RobotApiServer.IsRunning]) hrun
  obtain ⟨robot, hrobot⟩ := Option.isSome_iff_exists.mp hsome
  refine ⟨robot, hrobot, ?_⟩
  intro req hctx
  have hb : boundRobot req = some robot := by
    simp only [boundRobot, hctx, hrobot]
  exact ⟨hb, fun h sys => bound_not_missing h req sys robot hb⟩

/-- C11 at the sample sequence of calls, ending in a running server: the Dog adaptor of the
successful start is bound, and a volume-get request finds it. -/
theorem C11_running_implies_bound_witness :
    ((RobotApiServer.init (World Bool)).calls sampleCalls).IsRunning = true
      ∧ ∃ robot, ((RobotApiServer.init (World Bool)).calls sampleCalls).robot_ = some robot
        ∧ ∀ req : httpd_req_t (World Bool),
            req.user_ctx = some ((RobotApiServer.init (World Bool)).calls sampleCalls) →
            boundRobot req = some robot
            ∧ ∀ (h : HandlerFn) (sys : Sys (World Bool)),
                ∀ r ∈ sent (runHandler h req sys).trace, ¬ r.isMissingBinding :=
  ⟨rfl, C11_running_implies_bound sampleCalls rfl⟩

end Chg
